import Mathlib

/-!
Verification of the authentication subsystem of the gtm-cli repository
(`src/auth/oauth.ts`, `src/auth/credentials.ts`, `src/auth/service-account.ts`,
`src/api/client.ts`, `src/config/constants.ts`), shallowly embedded in Lean.

Conventions of the embedding:
* JavaScript strings are Lean `String`s; a value of type `string | null`
  (for example `URLSearchParams.get`) is `Option String`, with `none` for
  `null`; JavaScript truthiness of such a value (`if (x)`) is `strTruthy`.
* Millisecond epoch timestamps (`Date.now()`, `expiresAt`) are `Int`;
  the current time is passed explicitly as a `now` parameter.
* `async` functions that can `throw` return `Except String α`, the error
  carrying the `Error` message.
* Network endpoints are parameters (oracles): each call site takes the
  endpoint's response as an explicit argument, so a theorem quantifies
  over every possible remote behaviour.
* The credential file is modelled at two levels: `CredFileRead` describes
  what reading and JSON-parsing the file yields (absent / IO error /
  parse error / parsed JSON value), and `savedCredentialBytes` gives the
  exact text `saveCredentials` writes.  `JSON.stringify(x, null, 2)` is
  implemented character-for-character by `Json.stringifyPretty`, and the
  inverse law `JSON.parse (JSON.stringify v) = v` on JSON values is what
  lets a successful read of a file written by `saveCredentials c` be
  modelled as `CredFileRead.content (credsToJson c)`.
-/

namespace GtmCli

/-- JavaScript truthiness of a `string | null` value: `null` and the empty
string are falsy, every other string is truthy. -/
def strTruthy (o : Option String) : Bool :=
  !(o.getD "").isEmpty

/-- Constant from `src/config/constants.ts` line 160: `OAUTH_CALLBACK_PATH = "/callback"`. -/
def OAUTH_CALLBACK_PATH : String := "/callback"

/-- Structure `StoredCredentials` from `src/auth/credentials.ts`: the persisted OAuth
credential record.  `expiresAt` is a Unix timestamp in milliseconds. -/
structure StoredCredentials where
  accessToken : String
  refreshToken : String
  expiresAt : Int
  tokenType : String
  scope : String
  userEmail : Option String := none
  userName : Option String := none
  userId : Option String := none
deriving DecidableEq, Repr

/-- Structure `TokenResponse` from `src/auth/oauth.ts`: the token endpoint's JSON
body.  `refresh_token` is optional. -/
structure TokenResponse where
  access_token : String
  refresh_token : Option String := none
  expires_in : Int
  token_type : String
  scope : String
deriving DecidableEq, Repr

/-- Structure `UserInfo` from `src/auth/oauth.ts`: the userinfo endpoint's JSON body. -/
structure UserInfo where
  id : String
  email : String
  name : String
  picture : Option String := none
deriving DecidableEq, Repr

/-- Function `isExpired` (`src/auth/credentials.ts` lines 85-89): true when
`Date.now() >= expiresAt - 5min`. -/
def isExpired (now : Int) (credentials : StoredCredentials) : Bool :=
  -- const buffer = 5 * 60 * 1000
  now ≥ credentials.expiresAt - 5 * 60 * 1000

/-- Function `needsRefresh` (`src/auth/credentials.ts` lines 94-98): true when
`Date.now() >= expiresAt - 10min`. -/
def needsRefresh (now : Int) (credentials : StoredCredentials) : Bool :=
  -- const buffer = 10 * 60 * 1000
  now ≥ credentials.expiresAt - 10 * 60 * 1000

/-! ## The login callback handler (`src/auth/oauth.ts` lines 187-225) -/

/-- The query-relevant content of an HTTP request received by the login
callback listener: the URL path and the `code`, `state` and `error`
query parameters (`none` when the parameter is absent). -/
structure CallbackRequest where
  pathname : String
  code : Option String := none
  state : Option String := none
  error : Option String := none
deriving DecidableEq, Repr

/-- What the request handler inside `login` does for one request:
answer 404 without signalling, serve the error page and reject the pending
callback promise with a message, or serve the success page and resolve it
with the authorization code. -/
inductive CallbackOutcome where
  | notFound
  | abort (message : String)
  | proceed (code : String)
deriving DecidableEq, Repr

/-- The abort message for an OAuth `error` query parameter
(`src/auth/oauth.ts` line 197). -/
def oauthErrorMessage (e : String) : String :=
  "OAuth error: " ++ e

/-- The abort message when no authorization code is received
(`src/auth/oauth.ts` line 204). -/
def noCodeMessage : String :=
  "No authorization code received"

/-- The abort message on a CSRF state mismatch
(`src/auth/oauth.ts` line 211). -/
def stateMismatchMessage : String :=
  "State mismatch - possible CSRF attack"

/-- The request handler passed to `Deno.serve` inside `login`
(`src/auth/oauth.ts` lines 187-225), as a function of the `state` token
generated at flow start and the incoming request. -/
def handleCallback (expectedState : String) (req : CallbackRequest) :
    CallbackOutcome :=
  if req.pathname = OAUTH_CALLBACK_PATH then
    if strTruthy req.error then
      .abort (oauthErrorMessage (req.error.getD ""))
    else if !(strTruthy req.code) then
      .abort noCodeMessage
    else if req.state ≠ some expectedState then
      .abort stateMismatchMessage
    else
      .proceed (req.code.getD "")
  else
    .notFound

/-! ## The tail of the login flow (`src/auth/oauth.ts` lines 249-275) -/

/-- The token endpoint's behaviour on one request, as observed by the CLI:
either an OK response with a `TokenResponse` body, or a non-OK response
whose body text becomes part of the thrown error. -/
inductive TokenEndpointReply where
  | success (tokens : TokenResponse)
  | httpError (body : String)
deriving DecidableEq, Repr

/-- The userinfo endpoint's behaviour on one request. -/
inductive ProfileEndpointReply where
  | success (info : UserInfo)
  | httpError (body : String)
deriving DecidableEq, Repr

/-- Function `exchangeCodeForTokens` (`src/auth/oauth.ts` lines 70-91), as a function
of the endpoint's reply: a non-OK status throws. -/
def exchangeCodeForTokens (reply : TokenEndpointReply) :
    Except String TokenResponse :=
  match reply with
  | .success tokens => .ok tokens
  | .httpError body => .error ("Failed to exchange code for tokens: " ++ body)

/-- Function `fetchUserInfo` (`src/auth/oauth.ts` lines 121-134), as a function of
the endpoint's reply: a non-OK status throws. -/
def fetchUserInfo (reply : ProfileEndpointReply) : Except String UserInfo :=
  match reply with
  | .success info => .ok info
  | .httpError body => .error ("Failed to fetch user info: " ++ body)

/-- The credential record assembled by `login` (`src/auth/oauth.ts`
lines 257-269): `refreshToken` is `tokens.refresh_token || ""`. -/
def mkLoginCredentials (now : Int) (tokens : TokenResponse)
    (userInfo : UserInfo) : StoredCredentials :=
  { accessToken := tokens.access_token
    refreshToken := if strTruthy tokens.refresh_token then tokens.refresh_token.getD "" else ""
    expiresAt := now + tokens.expires_in * 1000
    tokenType := tokens.token_type
    scope := tokens.scope
    userEmail := some userInfo.email
    userName := some userInfo.name
    userId := some userInfo.id }

/-- The signal the callback handler delivers to the pending promise inside
`login`: `none` when no signal fires (the 404 branch), otherwise the
rejection message or the resolved authorization code. -/
def callbackSignal (outcome : CallbackOutcome) :
    Option (Except String String) :=
  match outcome with
  | .notFound => none
  | .abort message => some (.error message)
  | .proceed code => some (.ok code)

/-- The part of `login` after the callback promise settles
(`src/auth/oauth.ts` lines 240-275): a rejected promise propagates; a
resolved one drives code exchange, profile fetch, record assembly and
persistence.  Returns the record persisted via `saveCredentials` (`none`
when nothing was saved) together with `login`'s own result. -/
def loginTail (now : Int) (tokenEndpoint : String → TokenEndpointReply)
    (profileEndpoint : String → ProfileEndpointReply)
    (signal : Except String String) :
    Option StoredCredentials × Except String StoredCredentials :=
  match signal with
  | .error message => (none, .error message)
  | .ok code =>
    match exchangeCodeForTokens (tokenEndpoint code) with
    | .error e => (none, .error e)
    | .ok tokens =>
      match fetchUserInfo (profileEndpoint tokens.access_token) with
      | .error e => (none, .error e)
      | .ok userInfo =>
        let credentials := mkLoginCredentials now tokens userInfo
        (some credentials, .ok credentials)

/-- The record `login` persists for a given request to the callback
listener: nothing when the handler answers 404 or aborts, and the result
of `loginTail` when it signals. -/
def persistedAfterCallback (expectedState : String)
    (now : Int) (tokenEndpoint : String → TokenEndpointReply)
    (profileEndpoint : String → ProfileEndpointReply)
    (req : CallbackRequest) : Option StoredCredentials :=
  match callbackSignal (handleCallback expectedState req) with
  | none => none
  | some signal => (loginTail now tokenEndpoint profileEndpoint signal).1

/-! ## Token refresh (`src/auth/oauth.ts` lines 96-116 and 300-333) -/

/-- Function `refreshAccessToken` (`src/auth/oauth.ts` lines 96-116), as a function
of the token endpoint's reply to the refresh request. -/
def refreshAccessToken (reply : TokenEndpointReply) :
    Except String TokenResponse :=
  match reply with
  | .success tokens => .ok tokens
  | .httpError body => .error ("Failed to refresh token: " ++ body)

/-- Function `getAccessToken` (`src/auth/oauth.ts` lines 300-333).  `store` is the
loaded credential file (`none` when absent), `refreshEndpoint` the token
endpoint's reply to a refresh request carrying the given refresh token.
Returns the outcome together with the credential store afterwards (the
input store whenever `saveCredentials` was not reached). -/
def getAccessToken (now : Int) (store : Option StoredCredentials)
    (refreshEndpoint : String → TokenEndpointReply) :
    Except String String × Option StoredCredentials :=
  match store with
  | none => (.error "Not authenticated. Please run 'gtm auth login' first.", store)
  | some credentials =>
    if !(needsRefresh now credentials) then
      (.ok credentials.accessToken, store)
    else if !(strTruthy (some credentials.refreshToken)) then
      (.error "Session expired. Please run 'gtm auth login' again.", store)
    else
      match refreshAccessToken (refreshEndpoint credentials.refreshToken) with
      | .error e => (.error e, store)
      | .ok tokens =>
        let updatedCredentials : StoredCredentials :=
          { credentials with
            accessToken := tokens.access_token
            expiresAt := now + tokens.expires_in * 1000
            refreshToken :=
              if strTruthy tokens.refresh_token then tokens.refresh_token.getD ""
              else credentials.refreshToken }
        (.ok updatedCredentials.accessToken, some updatedCredentials)

/-! ## Logout and revocation (`src/auth/oauth.ts` lines 139-151, 280-295) -/

/-- What one `fetch` of the revocation endpoint does: delivers an OK
response, delivers a non-OK response, or rejects (DNS failure, connection
refused, unreachable host). -/
inductive RevokeReply where
  | ok
  | httpError
  | networkError (e : String)
deriving DecidableEq, Repr

/-- Function `revokeToken` (`src/auth/oauth.ts` lines 139-151): a non-OK response is
only warned about, but a rejected `fetch` propagates out of the `await`.
Returns the warnings printed. -/
def revokeToken (reply : RevokeReply) : Except String (List String) :=
  match reply with
  | .ok => .ok []
  | .httpError => .ok ["Warning: Could not revoke token with Google"]
  | .networkError e => .error e

/-- Function `logout` (`src/auth/oauth.ts` lines 280-295).  `store` is the loaded
credential file; `revoke` gives the revocation endpoint's behaviour per
token.  On normal return the file is deleted (`none`) and the collected
warnings are reported; a thrown error leaves the credential file as it
was, since `deleteCredentials` is only reached afterwards. -/
def logout (store : Option StoredCredentials)
    (revoke : String → RevokeReply) :
    Except String (Option StoredCredentials × List String) :=
  match store with
  | none => .ok (none, [])
  | some credentials => do
    let w1 ←
      if strTruthy (some credentials.accessToken) then
        revokeToken (revoke credentials.accessToken)
      else pure []
    let w2 ←
      if strTruthy (some credentials.refreshToken) then
        revokeToken (revoke credentials.refreshToken)
      else pure []
    pure (none, w1 ++ w2)

/-! ## JSON values and `JSON.stringify(x, null, 2)` -/

mutual

/-- A JSON value, the possible result of `JSON.parse`. -/
inductive Json where
  | null
  | bool (b : Bool)
  | num (n : Int)
  | str (s : String)
  | arr (elems : JsonItems)
  | obj (fields : JsonFields)

/-- The element list of a JSON array. -/
inductive JsonItems where
  | nil
  | cons (head : Json) (tail : JsonItems)

/-- The key-value entry list of a JSON object. -/
inductive JsonFields where
  | nil
  | cons (key : String) (value : Json) (tail : JsonFields)

end

/-- How `JSON.stringify` escapes one character inside a string literal. -/
def escapeJsonChar (c : Char) : String :=
  if c = '"' then "\\\""
  else if c = '\\' then "\\\\"
  else if c = Char.ofNat 8 then "\\b"
  else if c = Char.ofNat 9 then "\\t"
  else if c = Char.ofNat 10 then "\\n"
  else if c = Char.ofNat 12 then "\\f"
  else if c = Char.ofNat 13 then "\\r"
  else if c.toNat < 32 then
    "\\u00" ++ String.singleton (Nat.digitChar (c.toNat / 16))
            ++ String.singleton (Nat.digitChar (c.toNat % 16))
  else String.singleton c

/-- A JSON string literal: quoted and escaped. -/
def escapeJsonString (s : String) : String :=
  "\"" ++ String.join (s.data.map escapeJsonChar) ++ "\""

/-- A run of `n` spaces. -/
def spaces (n : Nat) : String :=
  String.mk (List.replicate n ' ')

mutual

/-- Rendering of `JSON.stringify(value, null, 2)` at nesting depth `d`.  A non-empty
array or object puts each entry on its own line, indented two more
spaces, entries separated by commas, closing bracket back at depth `d`. -/
def Json.render : Nat → Json → String
  | _, .null => "null"
  | _, .bool true => "true"
  | _, .bool false => "false"
  | _, .num n => toString n
  | _, .str s => escapeJsonString s
  | d, .arr elems =>
    match elems with
    | .nil => "[]"
    | .cons _ _ =>
      "[\n" ++ String.intercalate ",\n" (JsonItems.renderEach (d + 1) elems)
        ++ "\n" ++ spaces (2 * d) ++ "]"
  | d, .obj fields =>
    match fields with
    | .nil => "\x7b\x7d"
    | .cons _ _ _ =>
      "\x7b\n" ++ String.intercalate ",\n" (JsonFields.renderEach (d + 1) fields)
        ++ "\n" ++ spaces (2 * d) ++ "\x7d"

/-- Each array item rendered on its own indented line. -/
def JsonItems.renderEach : Nat → JsonItems → List String
  | _, .nil => []
  | d, .cons j rest =>
    (spaces (2 * d) ++ Json.render d j) :: JsonItems.renderEach d rest

/-- Each object entry rendered on its own indented `"key": value` line. -/
def JsonFields.renderEach : Nat → JsonFields → List String
  | _, .nil => []
  | d, .cons k v rest =>
    (spaces (2 * d) ++ escapeJsonString k ++ ": " ++ Json.render d v)
      :: JsonFields.renderEach d rest

end

/-- Top-level `JSON.stringify(value, null, 2)`. -/
def Json.stringifyPretty (j : Json) : String :=
  Json.render 0 j

/-- Lookup of a key among the entries of a JSON object, first match wins
(object keys produced by `JSON.parse` are unique). -/
def JsonFields.lookupField : JsonFields → String → Option Json
  | .nil, _ => none
  | .cons k v rest, key => if k = key then some v else rest.lookupField key

/-- JavaScript member access `obj[key]` on a parsed JSON value: the field's
value, or `none` for `undefined` (missing key or non-object). -/
def Json.getField (j : Json) (key : String) : Option Json :=
  match j with
  | .obj fields => fields.lookupField key
  | _ => none

/-! ## The credential file on disk
(`src/auth/credentials.ts` lines 31-72) -/

/-- An optional string-valued property of a JavaScript object, prepended
to the remaining entries: `JSON.stringify` skips keys whose value is
`undefined`. -/
def optStrField (name : String) (v : Option String) (rest : JsonFields) :
    JsonFields :=
  match v with
  | none => rest
  | some s => .cons name (.str s) rest

/-- The JSON object a `StoredCredentials` value serializes to, keys in the
creation order of the object literal in `login`
(`src/auth/oauth.ts` lines 260-269). -/
def credsToJson (c : StoredCredentials) : Json :=
  .obj (.cons "accessToken" (.str c.accessToken)
        (.cons "refreshToken" (.str c.refreshToken)
         (.cons "expiresAt" (.num c.expiresAt)
          (.cons "tokenType" (.str c.tokenType)
           (.cons "scope" (.str c.scope)
            (optStrField "userEmail" c.userEmail
             (optStrField "userName" c.userName
              (optStrField "userId" c.userId .nil))))))))

/-- The exact text `saveCredentials` writes to the credential file
(`src/auth/credentials.ts` line 34): `JSON.stringify(credentials, null, 2)`. -/
def savedCredentialBytes (c : StoredCredentials) : String :=
  Json.stringifyPretty (credsToJson c)

/-- Follows the spec's words (§6, "Both use pretty-printed JSON with
trailing newline"): the credential-file bytes the spec describes, for
comparison with `savedCredentialBytes`. -/
def specSavedCredentialBytes (c : StoredCredentials) : String :=
  Json.stringifyPretty (credsToJson c) ++ "\n"

/-- What reading and `JSON.parse`-ing the credential file yields:
the file is absent, reading throws an I/O error, the content is not valid
JSON (`JSON.parse` throws a `SyntaxError`), or the content parses to a
JSON value. -/
inductive CredFileRead where
  | notFound
  | readError (e : String)
  | parseError (e : String)
  | content (value : Json)

/-- Function `loadCredentials` (`src/auth/credentials.ts` lines 45-57): `NotFound`
becomes the absent sentinel `null`; any other read or parse failure is
rethrown; valid JSON is returned as the record by an unchecked cast, with
no field validation.  The return type `StoredCredentials | null` collapses
a parsed JSON `null` with the absent sentinel, so both are `.ok .null`. -/
def loadCredentials : CredFileRead → Except String Json
  | .notFound => .ok .null
  | .readError e => .error e
  | .parseError e => .error e
  | .content value => .ok value

/-- Reading the credential file right after `saveCredentials c` wrote
`savedCredentialBytes c`: `JSON.parse` inverts `JSON.stringify` on JSON
values, so a successful read parses back to `credsToJson c`. -/
def savedCredentialContent (c : StoredCredentials) : CredFileRead :=
  .content (credsToJson c)

/-- What one `Deno.remove` of the credential file does. -/
inductive RemoveReply where
  | ok
  | notFound
  | ioError (e : String)
deriving DecidableEq, Repr

/-- Function `deleteCredentials` (`src/auth/credentials.ts` lines 62-72): `NotFound`
is swallowed, every other removal failure is rethrown. -/
def deleteCredentials : RemoveReply → Except String Unit
  | .ok => .ok ()
  | .notFound => .ok ()
  | .ioError e => .error e

/-! ## Service-account / ADC credential provider
(`src/auth/service-account.ts`) -/

/-- The `method` enumeration of `AuthMethodConfig`. -/
inductive AuthMethod where
  | oauth
  | serviceAccount
  | adc
deriving DecidableEq, Repr

/-- The JSON string each method serializes to. -/
def AuthMethod.toMethodString : AuthMethod → String
  | .oauth => "oauth"
  | .serviceAccount => "service-account"
  | .adc => "adc"

/-- Structure `AuthMethodConfig` from `src/auth/service-account.ts` lines 33-37. -/
structure AuthMethodConfig where
  method : AuthMethod
  serviceAccountPath : Option String := none
  serviceAccountEmail : Option String := none
deriving DecidableEq, Repr

/-- The JSON object an `AuthMethodConfig` serializes to, keys in the
creation order of the literals in `loginWithServiceAccount` and
`loginWithADC`. -/
def authMethodToJson (cfg : AuthMethodConfig) : Json :=
  .obj (.cons "method" (.str cfg.method.toMethodString)
        (optStrField "serviceAccountPath" cfg.serviceAccountPath
         (optStrField "serviceAccountEmail" cfg.serviceAccountEmail .nil)))

/-- The exact text `saveAuthMethod` writes
(`src/auth/service-account.ts` line 47): `JSON.stringify(config, null, 2)`. -/
def savedAuthMethodBytes (cfg : AuthMethodConfig) : String :=
  Json.stringifyPretty (authMethodToJson cfg)

/-- Follows the spec's words (§6): the auth-method-file bytes the spec
describes, with a trailing newline, for comparison with
`savedAuthMethodBytes`. -/
def specSavedAuthMethodBytes (cfg : AuthMethodConfig) : String :=
  Json.stringifyPretty (authMethodToJson cfg) ++ "\n"

/-- The result of `getServiceAccountAccessToken`: a minted token with the
method that produced it, the `null` fall-through-to-OAuth sentinel, or a
thrown error. -/
inductive SATokenResult where
  | token (accessToken : String) (method : AuthMethod)
  | noToken
  | fatal (message : String)
deriving DecidableEq, Repr

/-- The environment `getServiceAccountAccessToken` runs in:
`envKeyPath` is `Deno.env.get("GOOGLE_APPLICATION_CREDENTIALS")`,
`savedAuthMethod` the parsed auth-method file (`loadAuthMethod()`),
`validateKey` the behaviour of `validateServiceAccountKey` per path,
`mintFromKeyFile` the token `google.auth.GoogleAuth({keyFile}).getClient().getAccessToken()`
yields per key path (`none` for a missing token), and `mintFromADC` the
same for ambient credentials. -/
structure SAEnv where
  envKeyPath : Option String
  savedAuthMethod : Option AuthMethodConfig
  validateKey : String → Except String Unit
  mintFromKeyFile : String → Option String
  mintFromADC : Option String

/-- The validate-then-mint block `getServiceAccountAccessToken` runs for a
key-file path, written once for the two textually identical occurrences
(`src/auth/service-account.ts` lines 181-191 and 207-217):
`if (!tokenResponse.token) throw`. -/
def mintFromKeyPath (env : SAEnv) (keyPath : String) : SATokenResult :=
  match env.validateKey keyPath with
  | .error e => .fatal e
  | .ok _ =>
    if strTruthy (env.mintFromKeyFile keyPath) then
      .token ((env.mintFromKeyFile keyPath).getD "") .serviceAccount
    else
      .fatal "Failed to get access token from service account"

/-- Function `getServiceAccountAccessToken` (`src/auth/service-account.ts`
lines 174-235). -/
def getServiceAccountAccessToken (env : SAEnv) : SATokenResult :=
  if strTruthy env.envKeyPath then
    mintFromKeyPath env (env.envKeyPath.getD "")
  else
    match env.savedAuthMethod with
    | none => .noToken
    | some authMethod =>
      match authMethod.method with
      | .oauth => .noToken
      | .serviceAccount =>
        if !(strTruthy authMethod.serviceAccountPath) then
          .fatal "Service account path not configured"
        else
          mintFromKeyPath env (authMethod.serviceAccountPath.getD "")
      | .adc =>
        if strTruthy env.mintFromADC then
          .token (env.mintFromADC.getD "") .adc
        else
          .fatal "Failed to get access token from ADC"

/-- The token-resolution step of `getTagManagerClient`
(`src/api/client.ts` lines 38-59): try the service-account/ADC provider
first, fall back to OAuth `getAccessToken` when it returns the `null`
sentinel. -/
def resolveClientToken (env : SAEnv) (now : Int)
    (store : Option StoredCredentials)
    (refreshEndpoint : String → TokenEndpointReply) : Except String String :=
  match getServiceAccountAccessToken env with
  | .token t _ => .ok t
  | .fatal m => .error m
  | .noToken => (getAccessToken now store refreshEndpoint).1

/-! ## The client-factory cache (`src/api/client.ts` lines 30-75) -/

/-- An API client handle.  `id` models JavaScript reference identity: two
handles are the same object exactly when their ids are equal, and every
call to `google.tagmanager(...)` yields a fresh id. -/
structure ClientHandle where
  id : Nat
  boundToken : String
deriving DecidableEq, Repr

/-- The module-level mutable state of `src/api/client.ts`:
`cachedClient`, `lastAccessToken`, plus the allocation counter for fresh
handle identities. -/
structure ClientCache where
  cachedClient : Option ClientHandle := none
  lastAccessToken : Option String := none
  nextId : Nat := 0
deriving DecidableEq, Repr

/-- Call `google.tagmanager({version, headers: Bearer token})` followed by the
two cache assignments (`src/api/client.ts` lines 48-55 and 66-74). -/
def mkTagManagerClient (token : String) (s : ClientCache) :
    ClientHandle × ClientCache :=
  let handle : ClientHandle := { id := s.nextId, boundToken := token }
  (handle,
   { cachedClient := some handle
     lastAccessToken := some token
     nextId := s.nextId + 1 })

/-- The caching step `getTagManagerClient` performs for a resolved token,
written once for the two textually identical branches
(`src/api/client.ts` lines 43-55 and 61-74):
`if (cachedClient && lastAccessToken === token) return cachedClient`. -/
def clientForToken (token : String) (s : ClientCache) :
    ClientHandle × ClientCache :=
  match s.cachedClient with
  | some handle =>
    if s.lastAccessToken = some token then (handle, s)
    else mkTagManagerClient token s
  | none => mkTagManagerClient token s

/-- Function `getTagManagerClient` (`src/api/client.ts` lines 38-75) as a function
of the resolved tokens: `saToken` is what `getServiceAccountAccessToken`
returned (`none` for the `null` sentinel) and `oauthToken` what
`getAccessToken` returned on the fall-through path. -/
def getTagManagerClient (saToken : Option String) (oauthToken : String)
    (s : ClientCache) : ClientHandle × ClientCache :=
  match saToken with
  | some t => clientForToken t s
  | none => clientForToken oauthToken s

/-- The token `getTagManagerClient saToken oauthToken` resolves. -/
def resolvedToken (saToken : Option String) (oauthToken : String) : String :=
  saToken.getD oauthToken

/-- Well-formedness of the cache state: a cached handle is bound to the
last-seen token, and its identity was allocated in the past.  Holds for
the initial state (both fields `null`) and is preserved by every call. -/
def ClientCache.wf (s : ClientCache) : Prop :=
  ∀ handle, s.cachedClient = some handle →
    s.lastAccessToken = some handle.boundToken ∧ handle.id < s.nextId

/-! ## Theorems -/

/-- A string never equals itself with a newline appended. -/
theorem string_ne_self_append_newline (s : String) : s ≠ s ++ "\n" := by
  intro h
  have hl := congrArg String.length h
  rw [String.length_append] at hl
  have h1 : ("\n" : String).length = 1 := rfl
  omega

/-- C6: for every credential record and current time, `isExpired` holds
exactly when `now ≥ expiresAt − 5min` and `needsRefresh` exactly when
`now ≥ expiresAt − 10min`; a record expiring in 7 minutes is not expired
but needs refresh, and every expired record needs refresh. -/
theorem c6_expiry_buffers (now : Int) (c : StoredCredentials) :
    (isExpired now c = true ↔ now ≥ c.expiresAt - 5 * 60 * 1000) ∧
    (needsRefresh now c = true ↔ now ≥ c.expiresAt - 10 * 60 * 1000) ∧
    (c.expiresAt = now + 7 * 60 * 1000 →
      isExpired now c = false ∧ needsRefresh now c = true) ∧
    (isExpired now c = true → needsRefresh now c = true) := by
  refine ⟨?_, ?_, fun h => ⟨?_, ?_⟩, fun h => ?_⟩ <;>
    simp only [isExpired, needsRefresh, ge_iff_le, decide_eq_true_eq,
      decide_eq_false_iff_not, not_le] at * <;> omega

/-- C6 witness: at `now = 0` a record with `expiresAt = 7min` is not
expired but needs refresh. -/
theorem c6_expiry_buffers_witness :
    isExpired 0 { accessToken := "A", refreshToken := "R",
                  expiresAt := 7 * 60 * 1000, tokenType := "Bearer",
                  scope := "s" } = false ∧
    needsRefresh 0 { accessToken := "A", refreshToken := "R",
                     expiresAt := 7 * 60 * 1000, tokenType := "Bearer",
                     scope := "s" } = true :=
  (c6_expiry_buffers 0 _).2.2.1 rfl

/-- C8: saving a credential record and then loading the file returns the
saved record, field for field: the load succeeds with the saved JSON
value, and every one of the eight fields reads back as the field of the
record that was saved (absent optional fields read back as absent). -/
theorem c8_save_load_round_trip (c : StoredCredentials) :
    loadCredentials (savedCredentialContent c) = .ok (credsToJson c) ∧
    (credsToJson c).getField "accessToken" = some (.str c.accessToken) ∧
    (credsToJson c).getField "refreshToken" = some (.str c.refreshToken) ∧
    (credsToJson c).getField "expiresAt" = some (.num c.expiresAt) ∧
    (credsToJson c).getField "tokenType" = some (.str c.tokenType) ∧
    (credsToJson c).getField "scope" = some (.str c.scope) ∧
    (credsToJson c).getField "userEmail" = c.userEmail.map .str ∧
    (credsToJson c).getField "userName" = c.userName.map .str ∧
    (credsToJson c).getField "userId" = c.userId.map .str := by
  obtain ⟨a, r, e, t, s, ue, un, ui⟩ := c
  refine ⟨rfl, ?_⟩
  cases ue <;> cases un <;> cases ui <;>
    simp [credsToJson, Json.getField, optStrField, JsonFields.lookupField]

/-- C9 counterexample: a credential file that exists and contains the JSON
text `null` makes `loadCredentials` return the very same absent sentinel
(`null` of type `StoredCredentials | null`) that a missing file produces,
so the sentinel is not returned *exactly* when the file does not exist. -/
theorem c9_counterexample :
    loadCredentials (.content .null) = .ok .null ∧
    loadCredentials .notFound = .ok .null ∧
    CredFileRead.content .null ≠ CredFileRead.notFound :=
  ⟨rfl, rfl, fun h => CredFileRead.noConfusion h⟩

/-- C9 (amended): `load()` returns the absent sentinel exactly when the
file does not exist or its content is the JSON literal `null`; any other
valid JSON content is returned as the record without field validation;
any other read or parse failure propagates; `delete()` succeeds on an
already-absent file and propagates every other removal failure. -/
theorem c9_absent_file_contract :
    (∀ r : CredFileRead, loadCredentials r = .ok .null ↔
      (r = .notFound ∨ r = .content .null)) ∧
    (∀ value : Json, loadCredentials (.content value) = .ok value) ∧
    (∀ e, loadCredentials (.readError e) = .error e) ∧
    (∀ e, loadCredentials (.parseError e) = .error e) ∧
    deleteCredentials .notFound = .ok () ∧
    (∀ e, deleteCredentials (.ioError e) = .error e) := by
  refine ⟨?_, fun _ => rfl, fun _ => rfl, fun _ => rfl, rfl, fun _ => rfl⟩
  intro r
  cases r <;> simp [loadCredentials]

set_option maxRecDepth 10000 in
/-- C10 counterexample: for a concrete record, the bytes `saveCredentials`
writes are the pretty-printed JSON with *no* trailing newline, and differ
from the spec's description of those bytes (which appends one). -/
theorem c10_counterexample :
    savedCredentialBytes
      { accessToken := "A", refreshToken := "R", expiresAt := 1000,
        tokenType := "Bearer", scope := "s", userEmail := some "e@x.com",
        userName := some "E", userId := some "1" } =
      "\x7b\n  \"accessToken\": \"A\",\n  \"refreshToken\": \"R\",\n  \"expiresAt\": 1000,\n  \"tokenType\": \"Bearer\",\n  \"scope\": \"s\",\n  \"userEmail\": \"e@x.com\",\n  \"userName\": \"E\",\n  \"userId\": \"1\"\n\x7d" ∧
    savedCredentialBytes
      { accessToken := "A", refreshToken := "R", expiresAt := 1000,
        tokenType := "Bearer", scope := "s", userEmail := some "e@x.com",
        userName := some "E", userId := some "1" } ≠
    specSavedCredentialBytes
      { accessToken := "A", refreshToken := "R", expiresAt := 1000,
        tokenType := "Bearer", scope := "s", userEmail := some "e@x.com",
        userName := some "E", userId := some "1" } := by
  exact ⟨by decide, by decide⟩

/-- C10 (amended): for every credential record and auth-method config, the
bytes written by the save operations are the pretty-printed JSON
serialization of the value with *no* trailing newline; the spec's
trailing-newline version always differs from what is written. -/
theorem c10_saved_bytes (c : StoredCredentials) (cfg : AuthMethodConfig) :
    specSavedCredentialBytes c = savedCredentialBytes c ++ "\n" ∧
    savedCredentialBytes c ≠ specSavedCredentialBytes c ∧
    specSavedAuthMethodBytes cfg = savedAuthMethodBytes cfg ++ "\n" ∧
    savedAuthMethodBytes cfg ≠ specSavedAuthMethodBytes cfg :=
  ⟨rfl, string_ne_self_append_newline _, rfl, string_ne_self_append_newline _⟩

/-- Evaluation of `strTruthy` on an absent value. -/
theorem strTruthy_none : strTruthy none = false := rfl

/-- Evaluation of `strTruthy` on a present value. -/
theorem strTruthy_some (s : String) : strTruthy (some s) = !s.isEmpty := rfl

/-- The empty string is `isEmpty`. -/
theorem string_isEmpty_nil : ("" : String).isEmpty = true := rfl

/-- A non-empty string is not `isEmpty`. -/
theorem string_isEmpty_false (s : String) (h : s ≠ "") : s.isEmpty = false := by
  cases hE : s.isEmpty
  · rfl
  · exact absurd ((String.isEmpty_iff s).mp hE) h

/-- A string that is not `isEmpty` is non-empty. -/
theorem string_ne_of_isEmpty_false (s : String) (h : s.isEmpty = false) :
    s ≠ "" := by
  intro h0
  rw [h0] at h
  exact absurd h (by decide)

/-- C1: the callback listener answers 404 with no state change off the
callback path; on the callback path a (non-empty) `error` parameter, a
missing `code`, and a `state` differing from the expected token each abort
with their own message; the three messages are pairwise distinct; no abort
or 404 ever persists a credential; and the flow proceeds to code exchange
exactly for a request carrying a code and the matching state. -/
theorem c1_callback_listener (expectedState : String) (now : Int)
    (tokenEndpoint : String → TokenEndpointReply)
    (profileEndpoint : String → ProfileEndpointReply)
    (req : CallbackRequest) :
    (req.pathname ≠ OAUTH_CALLBACK_PATH →
      handleCallback expectedState req = .notFound ∧
      callbackSignal (handleCallback expectedState req) = none ∧
      persistedAfterCallback expectedState now tokenEndpoint profileEndpoint
        req = none) ∧
    (∀ e, req.pathname = OAUTH_CALLBACK_PATH → req.error = some e → e ≠ "" →
      handleCallback expectedState req = .abort (oauthErrorMessage e)) ∧
    (req.pathname = OAUTH_CALLBACK_PATH → strTruthy req.error = false →
      req.code = none →
      handleCallback expectedState req = .abort noCodeMessage) ∧
    (∀ cd, req.pathname = OAUTH_CALLBACK_PATH → strTruthy req.error = false →
      req.code = some cd → cd ≠ "" → req.state ≠ some expectedState →
      handleCallback expectedState req = .abort stateMismatchMessage) ∧
    (∀ e, oauthErrorMessage e ≠ noCodeMessage ∧
      oauthErrorMessage e ≠ stateMismatchMessage) ∧
    noCodeMessage ≠ stateMismatchMessage ∧
    (∀ m, handleCallback expectedState req = .abort m →
      persistedAfterCallback expectedState now tokenEndpoint profileEndpoint
        req = none) ∧
    (∀ cd, handleCallback expectedState req = .proceed cd ↔
      (req.pathname = OAUTH_CALLBACK_PATH ∧ strTruthy req.error = false ∧
       req.code = some cd ∧ cd ≠ "" ∧ req.state = some expectedState)) := by
  refine ⟨?_, ?_, ?_, ?_, ?_, by decide, ?_, ?_⟩
  · intro h
    have hh : handleCallback expectedState req = .notFound := by
      simp [handleCallback, h]
    exact ⟨hh, by simp [callbackSignal, hh],
      by simp [persistedAfterCallback, hh, callbackSignal]⟩
  · intro e hp he hne
    simp [handleCallback, hp, he, strTruthy_some, string_isEmpty_false e hne]
  · intro hp he hc
    simp [handleCallback, hp, he, hc, strTruthy_none]
  · intro cd hp he hc hcd hs
    simp [handleCallback, hp, he, hc, strTruthy_some,
      string_isEmpty_false cd hcd, hs]
  · intro e
    have h0 : (oauthErrorMessage e).data.head? = some 'O' := by
      cases e; rfl
    constructor
    · intro h
      rw [h] at h0
      exact absurd h0 (by decide)
    · intro h
      rw [h] at h0
      exact absurd h0 (by decide)
  · intro m h
    simp [persistedAfterCallback, h, callbackSignal, loginTail]
  · intro cd
    constructor
    · intro h
      by_cases h1 : req.pathname = OAUTH_CALLBACK_PATH
      case neg => simp [handleCallback, h1] at h
      cases hE : strTruthy req.error with
      | true => simp [handleCallback, h1, hE] at h
      | false =>
        rcases hc : req.code with _ | c
        · simp [handleCallback, h1, hE, hc, strTruthy_none] at h
        · cases hCE : c.isEmpty with
          | true => simp [handleCallback, h1, hE, hc, strTruthy_some, hCE] at h
          | false =>
            by_cases hs : req.state = some expectedState
            · have hh : handleCallback expectedState req = .proceed c := by
                simp [handleCallback, h1, hE, hc, strTruthy_some, hCE, hs]
              rw [hh] at h
              have hcd : c = cd := by
                injection h
              subst hcd
              exact ⟨h1, rfl, rfl, string_ne_of_isEmpty_false c hCE, hs⟩
            · simp [handleCallback, h1, hE, hc, strTruthy_some, hCE, hs] at h
    · rintro ⟨hp, he, hc, hcd, hs⟩
      simp [handleCallback, hp, he, hc, strTruthy_some,
        string_isEmpty_false cd hcd, hs]

/-- C1 witness: with expected state `"S"`, a callback request with the
wrong state aborts with the CSRF message, and one with the matching state
and a code proceeds with that code. -/
theorem c1_callback_listener_witness :
    handleCallback "S" { pathname := "/callback", code := some "c",
                         state := some "X", error := none } =
      .abort stateMismatchMessage ∧
    handleCallback "S" { pathname := "/callback", code := some "c",
                         state := some "S", error := none } =
      .proceed "c" :=
  ⟨(c1_callback_listener "S" 0 (fun _ => .httpError "")
      (fun _ => .httpError "") _).2.2.2.1 "c" rfl rfl rfl (by decide) (by decide),
   ((c1_callback_listener "S" 0 (fun _ => .httpError "")
      (fun _ => .httpError "") _).2.2.2.2.2.2.2 "c").mpr
     ⟨rfl, rfl, rfl, by decide, rfl⟩⟩

/-- C2: on a successful login (token endpoint and profile endpoint both
answer OK), the record assembled by `login` copies the token response's
fields (empty refresh token when omitted), sets
`expiresAt = now + expires_in*1000`, copies the profile fields, and this
exact record is both persisted and returned. -/
theorem c2_login_success (now : Int) (code : String) (tokens : TokenResponse)
    (userInfo : UserInfo) (tokenEndpoint : String → TokenEndpointReply)
    (profileEndpoint : String → ProfileEndpointReply)
    (hTok : tokenEndpoint code = .success tokens)
    (hProf : profileEndpoint tokens.access_token = .success userInfo) :
    loginTail now tokenEndpoint profileEndpoint (.ok code) =
      (some (mkLoginCredentials now tokens userInfo),
       .ok (mkLoginCredentials now tokens userInfo)) ∧
    (mkLoginCredentials now tokens userInfo).accessToken =
      tokens.access_token ∧
    (mkLoginCredentials now tokens userInfo).refreshToken =
      tokens.refresh_token.getD "" ∧
    (mkLoginCredentials now tokens userInfo).expiresAt =
      now + tokens.expires_in * 1000 ∧
    (mkLoginCredentials now tokens userInfo).tokenType =
      tokens.token_type ∧
    (mkLoginCredentials now tokens userInfo).scope = tokens.scope ∧
    (mkLoginCredentials now tokens userInfo).userEmail =
      some userInfo.email ∧
    (mkLoginCredentials now tokens userInfo).userName =
      some userInfo.name ∧
    (mkLoginCredentials now tokens userInfo).userId = some userInfo.id := by
  refine ⟨?_, rfl, ?_, rfl, rfl, rfl, rfl, rfl, rfl⟩
  · simp [loginTail, hTok, hProf, exchangeCodeForTokens, fetchUserInfo]
  · rcases h : tokens.refresh_token with _ | s
    · simp [mkLoginCredentials, h, strTruthy_none]
    · rcases hs : s.isEmpty with _ | _
      · simp [mkLoginCredentials, h, strTruthy_some, hs]
      · simp [mkLoginCredentials, h, strTruthy_some, hs,
          (String.isEmpty_iff s).mp hs]

/-- C2 witness: the spec's stub endpoints
(`{access_token:"A", expires_in:3600, token_type:"Bearer", scope:"s"}`,
profile `{id:"1", email:"e@x.com", name:"E"}`) yield a persisted-and-
returned record with `accessToken = "A"` and `userEmail = "e@x.com"`. -/
theorem c2_login_success_witness :
    loginTail 0
      (fun _ => .success { access_token := "A", expires_in := 3600,
                           token_type := "Bearer", scope := "s" })
      (fun _ => .success { id := "1", email := "e@x.com", name := "E" })
      (.ok "c") =
      (some { accessToken := "A", refreshToken := "", expiresAt := 3600000,
              tokenType := "Bearer", scope := "s",
              userEmail := some "e@x.com", userName := some "E",
              userId := some "1" },
       .ok { accessToken := "A", refreshToken := "", expiresAt := 3600000,
             tokenType := "Bearer", scope := "s",
             userEmail := some "e@x.com", userName := some "E",
             userId := some "1" }) := by
  have h := c2_login_success 0 "c"
    { access_token := "A", expires_in := 3600, token_type := "Bearer",
      scope := "s" }
    { id := "1", email := "e@x.com", name := "E" }
    (fun _ => .success { access_token := "A", expires_in := 3600,
                         token_type := "Bearer", scope := "s" })
    (fun _ => .success { id := "1", email := "e@x.com", name := "E" })
    rfl rfl
  exact h.1

/-- C3: for a stored record that needs refresh — an empty refreshToken
fails fatally with the re-login instruction and leaves the store
untouched; a non-empty refreshToken with a successful token-endpoint
refresh persists exactly the old record with the new access token,
`expiresAt = now + expires_in*1000`, and the response's refresh token
when one is present (keeping the previous one otherwise); all other
fields are unchanged by the record-update form. -/
theorem c3_refresh_subflow (now : Int) (c : StoredCredentials)
    (refreshEndpoint : String → TokenEndpointReply)
    (hNeeds : needsRefresh now c = true) :
    (c.refreshToken = "" →
      getAccessToken now (some c) refreshEndpoint =
        (.error "Session expired. Please run 'gtm auth login' again.",
         some c)) ∧
    (∀ tokens : TokenResponse, c.refreshToken ≠ "" →
      refreshEndpoint c.refreshToken = .success tokens →
      tokens.refresh_token ≠ some "" →
      getAccessToken now (some c) refreshEndpoint =
        (.ok tokens.access_token,
         some { c with
                accessToken := tokens.access_token
                expiresAt := now + tokens.expires_in * 1000
                refreshToken := tokens.refresh_token.getD c.refreshToken })) := by
  constructor
  · intro h
    simp [getAccessToken, hNeeds, h, strTruthy_some, string_isEmpty_nil]
  · intro tokens hne hcall hrt
    rcases h : tokens.refresh_token with _ | s
    · simp [getAccessToken, hNeeds, hcall, refreshAccessToken, h,
        strTruthy_some, strTruthy_none, string_isEmpty_false _ hne]
    · have hs : s ≠ "" := fun hh => hrt (by rw [h, hh])
      simp [getAccessToken, hNeeds, hcall, refreshAccessToken, h,
        strTruthy_some, string_isEmpty_false _ hne, string_isEmpty_false s hs]

/-- C3 witness: at `now = 0` a record expiring at `0` needs refresh; with
an empty refreshToken `getAccessToken` fails fatally leaving the record,
and with refreshToken `"R"` and a refresh response carrying `"NEW"` and
`"R2"` it persists the updated record unchanged elsewhere. -/
theorem c3_refresh_subflow_witness :
    getAccessToken 0
      (some { accessToken := "OLD", refreshToken := "", expiresAt := 0,
              tokenType := "Bearer", scope := "s" })
      (fun _ => .httpError "") =
      (.error "Session expired. Please run 'gtm auth login' again.",
       some { accessToken := "OLD", refreshToken := "", expiresAt := 0,
              tokenType := "Bearer", scope := "s" }) ∧
    getAccessToken 0
      (some { accessToken := "OLD", refreshToken := "R", expiresAt := 0,
              tokenType := "Bearer", scope := "s" })
      (fun _ => .success { access_token := "NEW", refresh_token := some "R2",
                           expires_in := 3600, token_type := "Bearer",
                           scope := "s" }) =
      (.ok "NEW",
       some { accessToken := "NEW", refreshToken := "R2",
              expiresAt := 3600000, tokenType := "Bearer", scope := "s" }) :=
  ⟨(c3_refresh_subflow 0
      { accessToken := "OLD", refreshToken := "", expiresAt := 0,
        tokenType := "Bearer", scope := "s" }
      (fun _ => .httpError "") (by decide)).1 rfl,
   (c3_refresh_subflow 0
      { accessToken := "OLD", refreshToken := "R", expiresAt := 0,
        tokenType := "Bearer", scope := "s" }
      (fun _ => .success { access_token := "NEW", refresh_token := some "R2",
                           expires_in := 3600, token_type := "Bearer",
                           scope := "s" }) (by decide)).2
     { access_token := "NEW", refresh_token := some "R2", expires_in := 3600,
       token_type := "Bearer", scope := "s" }
     (by decide) rfl (by decide)⟩

/-- C5: evaluating `logout` at the claim's failing input.  With a stored
record and a revocation endpoint whose `fetch` rejects (unreachable
host), the rejection propagates out of `revokeToken` and `logout` throws
before ever reaching `deleteCredentials` — the credential file is NOT
deleted, contradicting the claim (and the code's own comment "Don't
throw on error").  When the endpoint is reachable but answers HTTP 500,
the failure is indeed only a warning, both tokens are attempted, and the
file is deleted. -/
theorem c5_logout_at_failing_input :
    logout (some { accessToken := "A", refreshToken := "R", expiresAt := 1000,
                   tokenType := "Bearer", scope := "s" })
      (fun _ => .networkError "fetch failed: network unreachable") =
      .error "fetch failed: network unreachable" ∧
    logout (some { accessToken := "A", refreshToken := "R", expiresAt := 1000,
                   tokenType := "Bearer", scope := "s" })
      (fun _ => .httpError) =
      .ok (none, ["Warning: Could not revoke token with Google",
                  "Warning: Could not revoke token with Google"]) :=
  ⟨rfl, rfl⟩

/-- C4: credential-provider resolution order.  (a) A (non-empty)
`GOOGLE_APPLICATION_CREDENTIALS` key path makes
`getServiceAccountAccessToken` validate and mint from that file, whatever
auth-method config is saved — even one specifying `adc`.  (b) With no env
key, a missing config or method `oauth` yields the no-token sentinel, and
the client factory then falls through to OAuth `getAccessToken`, which
with no stored credential record fails fatally instructing the user to
log in.  (c) With no env key, a saved method `service-account` without a
`serviceAccountPath` is a fatal error. -/
theorem c4_provider_resolution (env : SAEnv) (now : Int)
    (refreshEndpoint : String → TokenEndpointReply) :
    (∀ p, env.envKeyPath = some p → p ≠ "" →
      getServiceAccountAccessToken env = mintFromKeyPath env p ∧
      (∀ cfg,
        getServiceAccountAccessToken { env with savedAuthMethod := cfg } =
          mintFromKeyPath env p)) ∧
    (env.envKeyPath = none →
      (env.savedAuthMethod = none ∨
        (∃ cfg, env.savedAuthMethod = some cfg ∧ cfg.method = .oauth)) →
      getServiceAccountAccessToken env = .noToken ∧
      resolveClientToken env now none refreshEndpoint =
        .error "Not authenticated. Please run 'gtm auth login' first.") ∧
    (∀ cfg, env.envKeyPath = none → env.savedAuthMethod = some cfg →
      cfg.method = .serviceAccount → cfg.serviceAccountPath = none →
      getServiceAccountAccessToken env =
        .fatal "Service account path not configured") := by
  refine ⟨?_, ?_, ?_⟩
  · intro p hp hne
    constructor
    · simp [getServiceAccountAccessToken, hp, strTruthy_some,
        string_isEmpty_false p hne]
    · intro cfg
      simp [getServiceAccountAccessToken, hp, strTruthy_some,
        string_isEmpty_false p hne, mintFromKeyPath]
  · intro h0 hsaved
    have hh : getServiceAccountAccessToken env = .noToken := by
      rcases hsaved with hnone | ⟨cfg, hcfg, hmeth⟩
      · simp [getServiceAccountAccessToken, h0, strTruthy_none, hnone]
      · simp [getServiceAccountAccessToken, h0, strTruthy_none, hcfg, hmeth]
    exact ⟨hh, by simp [resolveClientToken, hh, getAccessToken]⟩
  · intro cfg h0 hcfg hmeth hpath
    simp [getServiceAccountAccessToken, h0, strTruthy_none, hcfg, hmeth,
      hpath, strTruthy_none]

/-- C4 witness: concrete environments exercising all three branches of the
resolution order: env key wins over a saved `adc` config; no config falls
through to OAuth and fails without a stored record; `service-account`
without a path is fatal. -/
theorem c4_provider_resolution_witness :
    getServiceAccountAccessToken
      { envKeyPath := some "/k.json",
        savedAuthMethod := some { method := .adc },
        validateKey := fun _ => .ok (),
        mintFromKeyFile := fun _ => some "SA-TOKEN",
        mintFromADC := some "ADC-TOKEN" } = .token "SA-TOKEN" .serviceAccount ∧
    resolveClientToken
      { envKeyPath := none, savedAuthMethod := none,
        validateKey := fun _ => .ok (),
        mintFromKeyFile := fun _ => none, mintFromADC := none }
      0 none (fun _ => .httpError "") =
      .error "Not authenticated. Please run 'gtm auth login' first." ∧
    getServiceAccountAccessToken
      { envKeyPath := none,
        savedAuthMethod := some { method := .serviceAccount },
        validateKey := fun _ => .ok (),
        mintFromKeyFile := fun _ => some "SA-TOKEN",
        mintFromADC := none } =
      .fatal "Service account path not configured" := by
  refine ⟨?_, ?_, ?_⟩
  · have h := (c4_provider_resolution
      { envKeyPath := some "/k.json",
        savedAuthMethod := some { method := .adc },
        validateKey := fun _ => .ok (),
        mintFromKeyFile := fun _ => some "SA-TOKEN",
        mintFromADC := some "ADC-TOKEN" } 0 (fun _ => .httpError "")).1
      "/k.json" rfl (by decide)
    exact h.1.trans (by decide)
  · exact ((c4_provider_resolution
      { envKeyPath := none, savedAuthMethod := none,
        validateKey := fun _ => .ok (),
        mintFromKeyFile := fun _ => none, mintFromADC := none }
      0 (fun _ => .httpError "")).2.1 rfl (.inl rfl)).2
  · exact (c4_provider_resolution
      { envKeyPath := none,
        savedAuthMethod := some { method := .serviceAccount },
        validateKey := fun _ => .ok (),
        mintFromKeyFile := fun _ => some "SA-TOKEN",
        mintFromADC := none } 0 (fun _ => .httpError "")).2.2
      { method := .serviceAccount } rfl rfl rfl rfl

/-- A cache hit: with a cached client and an unchanged last-seen token,
`clientForToken` returns the cached handle and leaves the state alone. -/
theorem clientForToken_hit (t : String) (s : ClientCache) (h : ClientHandle)
    (hc : s.cachedClient = some h) (hl : s.lastAccessToken = some t) :
    clientForToken t s = (h, s) := by
  simp [clientForToken, hc, hl]

/-- After any call, the cache holds exactly the returned handle. -/
theorem clientForToken_cached (t : String) (s : ClientCache) :
    (clientForToken t s).2.cachedClient = some (clientForToken t s).1 := by
  unfold clientForToken
  rcases hc : s.cachedClient with _ | h
  · rfl
  · by_cases hl : s.lastAccessToken = some t
    · simp [hl, hc]
    · simp [hl, mkTagManagerClient]

/-- After any call, the last-seen token is the resolved token. -/
theorem clientForToken_lastToken (t : String) (s : ClientCache) :
    (clientForToken t s).2.lastAccessToken = some t := by
  unfold clientForToken
  rcases hc : s.cachedClient with _ | h
  · rfl
  · by_cases hl : s.lastAccessToken = some t
    · simp [hl]
    · simp [hl, mkTagManagerClient]

/-- After any call from a well-formed state, the returned handle is bound
to the resolved token. -/
theorem clientForToken_bound (t : String) (s : ClientCache)
    (hwf : s.wf) : (clientForToken t s).1.boundToken = t := by
  unfold clientForToken
  rcases hc : s.cachedClient with _ | h
  · rfl
  · by_cases hl : s.lastAccessToken = some t
    · have hb := (hwf h hc).1
      rw [hl] at hb
      simp [hl, Option.some.inj hb]
    · simp [hl, mkTagManagerClient]

/-- Every call preserves well-formedness of the cache state. -/
theorem clientForToken_wf (t : String) (s : ClientCache) (hwf : s.wf) :
    (clientForToken t s).2.wf := by
  unfold clientForToken
  rcases hc : s.cachedClient with _ | h
  · intro h' hh
    simp [mkTagManagerClient] at hh
    simp [mkTagManagerClient, ← hh]
  · by_cases hl : s.lastAccessToken = some t
    · simpa [hl, hc] using hwf
    · intro h' hh
      simp [hl, mkTagManagerClient] at hh
      simp [hl, mkTagManagerClient, ← hh]

/-- From a well-formed state, resolving a token different from the
last-seen one never returns the previously cached handle. -/
theorem clientForToken_fresh (t : String) (s : ClientCache) (hwf : s.wf)
    (hl : s.lastAccessToken ≠ some t) :
    ∀ h, s.cachedClient = some h → (clientForToken t s).1 ≠ h := by
  intro h hc
  have hid := (hwf h hc).2
  unfold clientForToken
  rw [hc]
  simp only [hl, if_false, mkTagManagerClient]
  intro hh
  rw [← hh] at hid
  simp at hid

/-- A second call with the same token is a cache hit returning the same
handle and state. -/
theorem clientForToken_second (t : String) (s : ClientCache) :
    clientForToken t (clientForToken t s).2 = clientForToken t s :=
  clientForToken_hit t _ _ (clientForToken_cached t s)
    (clientForToken_lastToken t s)

/-- C7: the client factory resolves one token per call; two successive
calls resolving the same token string return the identical cached handle
and state; when the resolved token differs from the last-seen one the
returned handle is a fresh one (never the previously cached object); and
after every call the cached handle is exactly the returned one, bound to
the resolved token, which is the new last-seen token. -/
theorem c7_client_cache (saToken : Option String) (oauthToken : String)
    (s : ClientCache) (hwf : s.wf) :
    getTagManagerClient saToken oauthToken s =
      clientForToken (resolvedToken saToken oauthToken) s ∧
    (∀ sa2 o2, resolvedToken sa2 o2 = resolvedToken saToken oauthToken →
      getTagManagerClient sa2 o2
        (getTagManagerClient saToken oauthToken s).2 =
        getTagManagerClient saToken oauthToken s) ∧
    (s.lastAccessToken ≠ some (resolvedToken saToken oauthToken) →
      ∀ h, s.cachedClient = some h →
        (getTagManagerClient saToken oauthToken s).1 ≠ h) ∧
    (getTagManagerClient saToken oauthToken s).2.cachedClient =
      some (getTagManagerClient saToken oauthToken s).1 ∧
    (getTagManagerClient saToken oauthToken s).2.lastAccessToken =
      some (resolvedToken saToken oauthToken) ∧
    (getTagManagerClient saToken oauthToken s).1.boundToken =
      resolvedToken saToken oauthToken ∧
    (getTagManagerClient saToken oauthToken s).2.wf := by
  have hres : getTagManagerClient saToken oauthToken s =
      clientForToken (resolvedToken saToken oauthToken) s := by
    cases saToken <;> rfl
  refine ⟨hres, ?_, ?_, ?_, ?_, ?_, ?_⟩
  · intro sa2 o2 hEq
    have hres2 : getTagManagerClient sa2 o2
        (getTagManagerClient saToken oauthToken s).2 =
        clientForToken (resolvedToken sa2 o2)
          (getTagManagerClient saToken oauthToken s).2 := by
      cases sa2 <;> rfl
    rw [hres2, hEq, hres]
    exact clientForToken_second _ s
  · intro hl h hc
    rw [hres]
    exact clientForToken_fresh _ s hwf hl h hc
  · rw [hres]
    exact clientForToken_cached _ s
  · rw [hres]
    exact clientForToken_lastToken _ s
  · rw [hres]
    exact clientForToken_bound _ s hwf
  · rw [hres]
    exact clientForToken_wf _ s hwf

/-- C7 witness: starting from the initial empty cache, a first call with
resolved token `"T"` and a second call resolving the same `"T"` return
the identical handle and state; a later call with a changed token `"U"`
returns a handle other than the cached one. -/
theorem c7_client_cache_witness :
    getTagManagerClient (some "T") "O"
      (getTagManagerClient (some "T") "O"
        { cachedClient := none, lastAccessToken := none, nextId := 0 }).2 =
      getTagManagerClient (some "T") "O"
        { cachedClient := none, lastAccessToken := none, nextId := 0 } ∧
    (getTagManagerClient (some "U") "O"
      { cachedClient := some { id := 0, boundToken := "T" },
        lastAccessToken := some "T", nextId := 1 }).1 ≠
      { id := 0, boundToken := "T" } := by
  constructor
  · exact (c7_client_cache (some "T") "O"
      { cachedClient := none, lastAccessToken := none, nextId := 0 }
      (by intro h hh; simp at hh)).2.1 (some "T") "O" rfl
  · exact (c7_client_cache (some "U") "O"
      { cachedClient := some { id := 0, boundToken := "T" },
        lastAccessToken := some "T", nextId := 1 }
      (by intro h hh; simp at hh; simp [← hh])).2.2.1
      (by decide) { id := 0, boundToken := "T" } rfl

end GtmCli
